import Mathlib

/-!
Shallow embedding of the ffmpeg-dropbox-merger server (src/unnamed/part_000,
with src/server.js and src/unnamed/part_001 as earlier variants of the same
file).  Pure JS functions become Lean functions; the mutable caches and the
scratch directory become explicit state threaded through the handlers; network
and filesystem effects become oracle arguments (the value the awaited call
would have produced, or the error it would have thrown).
-/

namespace Merger

/-! ## JS string truthiness

`if (!x)` on a string-or-undefined value is false exactly for `undefined`
and the empty string. -/

/-- JS truthiness of an optional string: `undefined` and the empty string are
falsy, every other string is truthy. -/
def optTruthy : Option String → Bool
  | some s => s ≠ ""
  | none => false

/-! ## The shared-link regular expression

Model of the JS test `/^https?:\/\/.*dropbox\.com/i.test(input)` used in
`downloadViaDropbox` and `downloadToFile`.  `^` anchors at the start; the
trailing end is unanchored; the `i` flag makes every literal
case-insensitive; `.` matches any character except the four JS line
terminators. -/

/-- A character the JS regex metacharacter dot matches: anything except the
line terminators LF, CR, U+2028, U+2029. -/
def jsDot (c : Char) : Bool :=
  !(c = Char.ofNat 10 || c = Char.ofNat 13 ||
    c = Char.ofNat 0x2028 || c = Char.ofNat 0x2029)

/-- Case-insensitive literal match at the head of the input: if `s` begins
with `pat` (compared after lowercasing the input character), return the
remainder of `s`. `pat` is given in lowercase. -/
def stripCI : List Char → List Char → Option (List Char)
  | [], s => some s
  | _ :: _, [] => none
  | p :: ps, c :: cs => if c.toLower = p then stripCI ps cs else none

/-- Case-insensitive search for `pat` after a run of dot-matching characters:
models `.*pat` with backtracking at every split point. -/
def searchCI (pat : List Char) : List Char → Bool
  | [] => (stripCI pat []).isSome
  | c :: cs => (stripCI pat (c :: cs)).isSome || (jsDot c && searchCI pat cs)

/-- Consume the scheme part `https?://` case-insensitively, returning the
rest of the string, trying the branch with the optional `s` first and
backtracking without it, as the regex engine would. -/
def afterScheme (cs : List Char) : Option (List Char) :=
  match stripCI "http".toList cs with
  | none => none
  | some r =>
    match stripCI "s://".toList r with
    | some r2 => some r2
    | none => stripCI "://".toList r

/-- The whole test: the input starts with `http://` or `https://`
(case-insensitively) and, after that scheme, contains `dropbox.com`
(case-insensitively) with only dot-matching characters before it. -/
def dropboxLinkTest (s : String) : Bool :=
  match afterScheme s.toList with
  | some rest => searchCI "dropbox.com".toList rest
  | none => false

/-- Does the second character list begin with the first? Executable model of
the JS `startsWith` used on resource references and destination paths. -/
def charsBegin : List Char → List Char → Bool
  | [], _ => true
  | _ :: _, [] => false
  | p :: ps, c :: cs => p = c && charsBegin ps cs

def jsStartsWith (s pre : String) : Bool := charsBegin pre.toList s.toList

def jsEndsWith (s suf : String) : Bool :=
  charsBegin suf.toList.reverse s.toList.reverse

/-- The authority (host) component of a URL: the characters after the scheme
and before the first slash.  Used only to exhibit inputs whose host is not a
Dropbox host. -/
def authorityOf (s : String) : String :=
  match afterScheme s.toList with
  | some rest => String.mk (rest.takeWhile (· ≠ '/'))
  | none => ""

/-! ## Resource classification (`downloadToFile` / `downloadViaDropbox`)

We model which branch the fetch takes and whether the body is buffered in one
pass (`sharingGetSharedLinkFile` + `writeFile`) or streamed
(`axios responseType stream` + `pipeline`). -/

inductive FetchRoute
  | sharedLinkApi
  | tempLinkStream
  | genericHttp
  deriving DecidableEq, Repr

inductive Transfer
  | buffered
  | streamed
  deriving DecidableEq, Repr

/-- Branch structure of `downloadViaDropbox` (part_000 lines 135-158): shared
link pattern first, then leading slash, otherwise throw. -/
def downloadViaDropboxPlan (input : String) : Except String (FetchRoute × Transfer) :=
  if dropboxLinkTest input then .ok (.sharedLinkApi, .buffered)
  else if jsStartsWith input "/" then .ok (.tempLinkStream, .streamed)
  else .error "Unsupported Dropbox input. Provide a shared link or a Dropbox path like /Folder/file.mp4"

/-- Branch structure of `downloadToFile` (part_000 lines 159-168): Dropbox
inputs go through `downloadViaDropbox`, everything else is a generic
streamed HTTP GET. -/
def downloadToFilePlan (urlOrPath : String) : Except String (FetchRoute × Transfer) :=
  if dropboxLinkTest urlOrPath || jsStartsWith urlOrPath "/" then
    downloadViaDropboxPlan urlOrPath
  else .ok (.genericHttp, .streamed)

/-! ## Shared-secret gate (`requireSecret`, part_000 lines 27-32) -/

/-- `process.env.APP_SECRET || null`: an unset or empty environment variable
leaves the secret unconfigured. -/
def appSecretOf (env : String) : Option String :=
  if env = "" then none else some env

inductive GateResult
  | next
  | unauthorized
  deriving DecidableEq, Repr

/-- `requireSecret`: pass when no secret is configured; otherwise pass only
when the X-App-Secret header equals the configured value, else 401. -/
def requireSecret (appSecret : Option String) (hdr : Option String) : GateResult :=
  match appSecret with
  | none => .next
  | some s => if hdr = some s then .next else .unauthorized

/-- A secret-gated route: the handler result is produced only when the gate
says next; otherwise the 401 response is sent and the handler body never
runs. -/
inductive Gated (α : Type)
  | unauthorized
  | handled (a : α)
  deriving DecidableEq, Repr

def gatedRoute {α : Type} (appSecret hdr : Option String) (handler : α) : Gated α :=
  match requireSecret appSecret hdr with
  | .next => .handled handler
  | .unauthorized => .unauthorized

/-! ## Dropbox token cache (`getAccessToken`, part_000 lines 47-72) -/

structure TokenCache where
  accessToken : Option String
  expiresAt : Int
  deriving DecidableEq, Repr

/-- Body of the token-endpoint response; `expires_in` is seconds and the code
reads it as `data.expires_in || 14400`, so absent and 0 both fall back. -/
structure TokenResponse where
  access_token : String
  expires_in : Option Int
  deriving DecidableEq, Repr

def ttlOf (r : TokenResponse) : Int :=
  match r.expires_in with
  | some t => if t = 0 then 14400 else t
  | none => 14400

/-- `getAccessToken`: `now` is `Date.now()` at entry, `respTime` is
`Date.now()` when the exchange response arrives, `resp` is the outcome of the
network exchange.  Returns the token (or the rethrown error), the cache
afterwards, and how many network exchanges were performed (0 or 1). -/
def getAccessToken (cache : TokenCache) (now : Int)
    (resp : Except String TokenResponse) (respTime : Int) :
    Except String String × TokenCache × Nat :=
  match cache.accessToken with
  | some tok =>
    if now < cache.expiresAt - 60000 then (.ok tok, cache, 0)
    else
      match resp with
      | .ok r => (.ok r.access_token,
          ⟨some r.access_token, respTime + ttlOf r * 1000⟩, 1)
      | .error e => (.error e, cache, 1)
  | none =>
    match resp with
    | .ok r => (.ok r.access_token,
        ⟨some r.access_token, respTime + ttlOf r * 1000⟩, 1)
    | .error e => (.error e, cache, 1)

/-- `getTtAccessToken` (part_000 lines 87-96): no cache at all — when the
TikTok env triple is configured, every call performs one network exchange and
returns whatever the endpoint answered; otherwise it throws before any
network traffic. -/
def getTtAccessToken (configured : Bool) (resp : Except String String) :
    Except String String × Nat :=
  if configured then (resp, 1) else (.error "TikTok env not configured", 0)

/-! ## Dropbox upload (`uploadToDropbox`, part_000 lines 191-200)

The size ceiling is checked on the local file before any byte is read or sent
to the provider.  The Bool records whether the provider upload call was
reached. -/

def uploadToDropbox (size : Nat) (provider : Except String Unit) :
    Except String Unit × Bool :=
  if size > 150 * 1024 * 1024 then
    (.error "File too large for simple upload (>150MB).", false)
  else (provider, true)

/-! ## The /merge handler (part_000 lines 218-274)

The scratch directory is a list of paths; a download or merge stage writes
its output path into it as soon as the write stream is opened; `unlink`
removes a path, and removing an absent path is the swallowed `.catch`
no-op. -/

def unlink (fs : List String) (p : String) : List String :=
  fs.filter (· ≠ p)

/-- `dropboxPath.endsWith(".mp4") ? dropboxPath : dropboxPath + "/merged-" +
Date.now() + ".mp4"` (part_000 line 237). -/
def finalDropboxPath (dropboxPath : String) (now : Int) : String :=
  if jsEndsWith dropboxPath ".mp4" then dropboxPath
  else dropboxPath ++ "/merged-" ++ toString now ++ ".mp4"

/-- Which pipeline stages the handler invoked (attempted, whether or not they
succeeded). -/
structure StagesRun where
  dlV : Bool
  dlA : Bool
  merge : Bool
  upload : Bool
  deriving DecidableEq, Repr

inductive MergeResponse
  | badRequest (error : String)
  | okJson (dropboxPath : Option String)
  | streamFile (path : String)
  | serverError (error : String) (details : String)
  deriving DecidableEq, Repr

structure MergeOutcome where
  response : MergeResponse
  fs : List String
  stages : StagesRun
  xDropboxPath : Option String
  uploadDest : Option String
  uploadTransferred : Bool
  deriving DecidableEq, Repr

/-- Outcome of a temp-file-producing stage (the two downloads and the ffmpeg
merge).  `ok path` is normal completion, with the produced path assigned to
the handler variable (vPath/aPath/mPath).  `failEarly msg` is a throw before
the stage created its temp file: for a download, `axios.get` or the Dropbox
API call itself rejected, so `fs.createWriteStream(out)` never ran.
`failPartial path msg` is a throw after the temp file was created but before
the stage returned — a response body stream dropping mid-`pipeline`, or
ffmpeg dying after opening its output — so the partially written file exists
on disk while the handler variable stays undefined, and the catch block,
which unlinks only assigned variables, never removes it. -/
inductive StageResult
  | ok (path : String)
  | failEarly (msg : String)
  | failPartial (path : String) (msg : String)
  deriving DecidableEq, Repr

/-- The `/merge` handler body.  `fs0` is the scratch directory when the
request arrives; the returned `fs` is the scratch directory at the moment
the response is sent (the streaming branch defers its cleanup to the stream
close event, so there it still holds all three files). -/
def mergeHandler (videoUrl audioUrl dropboxPath : Option String) (noStream : Bool)
    (dlV dlA mrg : StageResult) (mergedSize : Nat)
    (upProvider : Except String Unit) (now : Int) (fs0 : List String) :
    MergeOutcome :=
  if !(optTruthy videoUrl) || !(optTruthy audioUrl) then
    { response := .badRequest "videoUrl and audioUrl are required", fs := fs0,
      stages := ⟨false, false, false, false⟩, xDropboxPath := none,
      uploadDest := none, uploadTransferred := false }
  else
    match dlV with
    | .failEarly e =>
      { response := .serverError "Merge failed" e, fs := fs0,
        stages := ⟨true, false, false, false⟩, xDropboxPath := none,
        uploadDest := none, uploadTransferred := false }
    | .failPartial p e =>
      { response := .serverError "Merge failed" e, fs := p :: fs0,
        stages := ⟨true, false, false, false⟩, xDropboxPath := none,
        uploadDest := none, uploadTransferred := false }
    | .ok vPath =>
      let fs1 := vPath :: fs0
      match dlA with
      | .failEarly e =>
        { response := .serverError "Merge failed" e, fs := unlink fs1 vPath,
          stages := ⟨true, true, false, false⟩, xDropboxPath := none,
          uploadDest := none, uploadTransferred := false }
      | .failPartial p e =>
        { response := .serverError "Merge failed" e,
          fs := unlink (p :: fs1) vPath,
          stages := ⟨true, true, false, false⟩, xDropboxPath := none,
          uploadDest := none, uploadTransferred := false }
      | .ok aPath =>
        let fs2 := aPath :: fs1
        match mrg with
        | .failEarly e =>
          { response := .serverError "Merge failed" e,
            fs := unlink (unlink fs2 vPath) aPath,
            stages := ⟨true, true, true, false⟩, xDropboxPath := none,
            uploadDest := none, uploadTransferred := false }
        | .failPartial p e =>
          { response := .serverError "Merge failed" e,
            fs := unlink (unlink (p :: fs2) vPath) aPath,
            stages := ⟨true, true, true, false⟩, xDropboxPath := none,
            uploadDest := none, uploadTransferred := false }
        | .ok mPath =>
          let fs3 := mPath :: fs2
          if optTruthy dropboxPath then
            let saved := finalDropboxPath (dropboxPath.getD "") now
            let up := uploadToDropbox mergedSize upProvider
            match up.1 with
            | .error e =>
              { response := .serverError "Merge failed" e,
                fs := unlink (unlink (unlink fs3 vPath) aPath) mPath,
                stages := ⟨true, true, true, true⟩, xDropboxPath := none,
                uploadDest := some saved, uploadTransferred := up.2 }
            | .ok _ =>
              if noStream then
                { response := .okJson (some saved),
                  fs := unlink (unlink (unlink fs3 vPath) aPath) mPath,
                  stages := ⟨true, true, true, true⟩,
                  xDropboxPath := some saved, uploadDest := some saved,
                  uploadTransferred := up.2 }
              else
                { response := .streamFile mPath, fs := fs3,
                  stages := ⟨true, true, true, true⟩,
                  xDropboxPath := some saved, uploadDest := some saved,
                  uploadTransferred := up.2 }
          else
            if noStream then
              { response := .okJson none,
                fs := unlink (unlink (unlink fs3 vPath) aPath) mPath,
                stages := ⟨true, true, true, false⟩, xDropboxPath := none,
                uploadDest := none, uploadTransferred := false }
            else
              { response := .streamFile mPath, fs := fs3,
                stages := ⟨true, true, true, false⟩, xDropboxPath := none,
                uploadDest := none, uploadTransferred := false }

/-! ## TikTok publish idempotency (part_000 lines 279-321) -/

structure IdemRecord where
  publish_id : String
  recordedAt : Int
  deriving DecidableEq, Repr

/-- `idem.set(key, record)` on a JS Map: replaces any previous binding. -/
def idemSet (k : String) (v : IdemRecord) (m : List (String × IdemRecord)) :
    List (String × IdemRecord) :=
  (k, v) :: m.filter (·.1 ≠ k)

/-- Lookup in the idempotency map: `idem.get(key)` / `idem.has(key)`. -/
def idemLookup (k : String) : List (String × IdemRecord) → Option IdemRecord
  | [] => none
  | (k1, v) :: rest => if k = k1 then some v else idemLookup k rest

/-- The 30-minute sweep body (part_000 lines 280-283): delete every record
strictly older than 6 hours, keep the rest. -/
def sweep : List (String × IdemRecord) → Int → List (String × IdemRecord)
  | [], _ => []
  | kv :: rest, now =>
    if now - kv.2.recordedAt > 6 * 60 * 60 * 1000 then sweep rest now
    else kv :: sweep rest now

inductive TtResponse
  | badRequest (error : String)
  | okCached (publish_id : String)
  | okNew (publish_id : String)
  | serverError (error : String)
  deriving DecidableEq, Repr

/-- The `/tiktok/post` handler body.  `pipeline` is the outcome of the try
work of the try block (Dropbox temp-link download, TikTok token, publish init, chunk
upload): `.ok pid` when init returned `publish_id = pid` and the upload
succeeded, `.error e` when any of those stages threw.  The returned Bool
records whether that pipeline work ran at all. -/
def tiktokPost (ttConfigured : Bool) (dropboxPath caption : Option String)
    (idemKey : Option String) (m : List (String × IdemRecord)) (now : Int)
    (pipeline : Except String String) :
    TtResponse × List (String × IdemRecord) × Bool :=
  if !(optTruthy dropboxPath) || !(optTruthy caption) then
    (.badRequest "dropboxPath and caption are required", m, false)
  else if !ttConfigured then
    (.badRequest "TikTok env not configured", m, false)
  else
    match (if optTruthy idemKey then idemLookup (idemKey.getD "") m else none) with
    | some prev => (.okCached prev.publish_id, m, false)
    | none =>
      match pipeline with
      | .ok pid =>
        (.okNew pid,
         if optTruthy idemKey then idemSet (idemKey.getD "") ⟨pid, now⟩ m else m,
         true)
      | .error e => (.serverError e, m, true)

/-! ## Theorems -/

/-- Claim C6: for every resource reference passed to fetch, classification
follows this order: a reference matching the cloud-storage shared-link
pattern is resolved via the provider link-resolution API with the full
payload buffered and written in one pass; otherwise a reference beginning
with a path separator is resolved via a temporary signed download URL and
streamed; any other reference is fetched as a generic streamed HTTP(S)
GET. -/
theorem fetch_classification_order (s : String) :
    (dropboxLinkTest s = true →
      downloadToFilePlan s = .ok (.sharedLinkApi, .buffered)) ∧
    (dropboxLinkTest s = false → jsStartsWith s "/" = true →
      downloadToFilePlan s = .ok (.tempLinkStream, .streamed)) ∧
    (dropboxLinkTest s = false → jsStartsWith s "/" = false →
      downloadToFilePlan s = .ok (.genericHttp, .streamed)) := by
  refine ⟨fun h => ?_, fun h1 h2 => ?_, fun h1 h2 => ?_⟩ <;>
    simp [downloadToFilePlan, downloadViaDropboxPlan, *]

/-- Witness for C6 at the three concrete reference shapes. -/
theorem fetch_classification_order_witness :
    downloadToFilePlan "https://www.dropbox.com/s/abc/file.mp4" =
        .ok (.sharedLinkApi, .buffered) ∧
    downloadToFilePlan "/Folder/file.mp4" = .ok (.tempLinkStream, .streamed) ∧
    downloadToFilePlan "https://example.com/a.mp4" =
        .ok (.genericHttp, .streamed) :=
  ⟨(fetch_classification_order "https://www.dropbox.com/s/abc/file.mp4").1
      (by decide),
   (fetch_classification_order "/Folder/file.mp4").2.1 (by decide) (by decide),
   (fetch_classification_order "https://example.com/a.mp4").2.2 (by decide)
      (by decide)⟩

/-- Claim C10: the shared-link classifier is the unanchored-suffix regex
test, so an http(s) URL on a non-Dropbox host whose path merely contains
the text dropbox.com is classified as a shared link and routed to the
provider link-resolution API instead of the generic HTTP path; the match is
also case-insensitive. -/
theorem shared_link_overmatch :
    dropboxLinkTest "https://evil.example/files/dropbox.com/v.mp4" = true ∧
    authorityOf "https://evil.example/files/dropbox.com/v.mp4" =
        "evil.example" ∧
    downloadToFilePlan "https://evil.example/files/dropbox.com/v.mp4" =
        .ok (.sharedLinkApi, .buffered) ∧
    dropboxLinkTest "HTTPS://WWW.DROPBOX.COM/S/X" = true :=
  ⟨by decide, by decide, rfl, by decide⟩

/-- Claim C7: on a secret-gated route, when a shared secret is configured a
request whose secret header differs from it gets the 401 rejection and the
handler body is never reached; a matching header proceeds; when no secret is
configured the gate is a no-op and every request proceeds. -/
theorem secret_gate {α : Type} (env : String) (hdr : Option String)
    (handler : α) :
    (env ≠ "" → hdr ≠ some env →
      gatedRoute (appSecretOf env) hdr handler = .unauthorized) ∧
    (env ≠ "" → hdr = some env →
      gatedRoute (appSecretOf env) hdr handler = .handled handler) ∧
    (env = "" → gatedRoute (appSecretOf env) hdr handler = .handled handler) := by
  refine ⟨fun h1 h2 => ?_, fun h1 h2 => ?_, fun h1 => ?_⟩ <;>
    simp [gatedRoute, requireSecret, appSecretOf, *]

/-- Witness for C7: wrong header is rejected, matching header and the
unconfigured gate proceed. -/
theorem secret_gate_witness :
    gatedRoute (appSecretOf "s3cret") (some "wrong") (0 : Nat) = .unauthorized ∧
    gatedRoute (appSecretOf "s3cret") (some "s3cret") (0 : Nat) = .handled 0 ∧
    gatedRoute (appSecretOf "") none (0 : Nat) = .handled 0 :=
  ⟨(secret_gate "s3cret" (some "wrong") 0).1 (by decide) (by decide),
   (secret_gate "s3cret" (some "s3cret") 0).2.1 (by decide) rfl,
   (secret_gate "" none 0).2.2 rfl⟩

/-- Counterexample to claim C4 as stated for every external provider: the
TikTok credential fetch has no cache, so each of two back-to-back calls
performs its own network exchange — two exchanges, not exactly one. -/
theorem tiktok_token_no_cache_counterexample :
    (getTtAccessToken true (.ok "tok")).2 = 1 ∧
    (getTtAccessToken true (.ok "tok")).2 +
      (getTtAccessToken true (.ok "tok")).2 = 2 := by
  constructor <;> rfl

/-- Claim C4 (amended to the Dropbox provider): a call when the current
time is more than 60 seconds before the cached expiry returns the cached
token with no network exchange; a refresh stores expiry = response time
plus the reported time-to-live in seconds times 1000, defaulting to 14400
seconds when unspecified; and two calls within 60 seconds of a successful
refresh with the default time-to-live perform exactly one exchange in
total. -/
theorem dropbox_token_cache (cache : TokenCache) (tok : String) (now : Int)
    (resp : Except String TokenResponse) (respTime : Int) :
    (cache.accessToken = some tok → now < cache.expiresAt - 60000 →
      getAccessToken cache now resp respTime = (.ok tok, cache, 0)) ∧
    (∀ r : TokenResponse, resp = .ok r →
      (cache.accessToken = none ∨ ¬ now < cache.expiresAt - 60000) →
      getAccessToken cache now resp respTime =
        (.ok r.access_token,
         ⟨some r.access_token, respTime + ttlOf r * 1000⟩, 1) ∧
      (r.expires_in = none → ttlOf r = 14400)) ∧
    (∀ (t0 t1 rt2 : Int) (r : TokenResponse)
        (resp2 : Except String TokenResponse),
      cache.accessToken = none → r.expires_in = none → t1 ≤ t0 + 60000 →
      (getAccessToken cache now (.ok r) t0).2.2 = 1 ∧
      getAccessToken (getAccessToken cache now (.ok r) t0).2.1 t1 resp2 rt2 =
        (.ok r.access_token, (getAccessToken cache now (.ok r) t0).2.1, 0)) := by
  refine ⟨fun h1 h2 => ?_, fun r h1 h2 => ?_, fun t0 t1 rt2 r resp2 h1 h2 h3 => ?_⟩
  · simp [getAccessToken, h1, h2]
  · subst h1
    refine ⟨?_, fun hn => by simp [ttlOf, hn]⟩
    cases hc : cache.accessToken with
    | none => simp [getAccessToken, hc]
    | some t =>
      rcases h2 with h2 | h2
      · rw [hc] at h2; exact absurd h2 (by simp)
      · simp [getAccessToken, hc, if_neg h2]
  · constructor
    · simp [getAccessToken, h1]
    · have hlt : t1 < t0 + ttlOf r * 1000 - 60000 := by
        simp [ttlOf, h2]; omega
      simp [getAccessToken, h1, hlt]

/-- Witness for the amended C4 theorem: cache hit, refresh-expiry formula,
and the two-calls-one-exchange scenario at concrete times. -/
theorem dropbox_token_cache_witness :
    getAccessToken ⟨some "tk", 1000000⟩ 0 (.error "down") 0 =
        (.ok "tk", ⟨some "tk", 1000000⟩, 0) ∧
    getAccessToken ⟨none, 0⟩ 0 (.ok ⟨"fresh", none⟩) 5 =
        (.ok "fresh", ⟨some "fresh", 5 + 14400 * 1000⟩, 1) ∧
    ((getAccessToken ⟨none, 0⟩ 0 (.ok ⟨"fresh", none⟩) 100).2.2 = 1 ∧
      getAccessToken (getAccessToken ⟨none, 0⟩ 0 (.ok ⟨"fresh", none⟩) 100).2.1
          60100 (.error "down") 60100 =
        (.ok "fresh",
         (getAccessToken ⟨none, 0⟩ 0 (.ok ⟨"fresh", none⟩) 100).2.1, 0)) :=
  ⟨(dropbox_token_cache ⟨some "tk", 1000000⟩ "tk" 0 (.error "down") 0).1 rfl
      (by decide),
   ((dropbox_token_cache ⟨none, 0⟩ "" 0 (.ok ⟨"fresh", none⟩) 5).2.1
      ⟨"fresh", none⟩ rfl (Or.inl rfl)).1,
   (dropbox_token_cache ⟨none, 0⟩ "" 0 (.ok ⟨"fresh", none⟩) 0).2.2 100 60100
      60100 ⟨"fresh", none⟩ (.error "down") rfl rfl (by omega)⟩

/-- Membership after unlink: the removed path is gone. -/
theorem not_mem_unlink (fs : List String) (p : String) : p ∉ unlink fs p := by
  simp [unlink]

/-- Unlinking one path leaves membership of every other path unchanged. -/
theorem mem_unlink_of_ne {q p : String} (fs : List String) (hne : q ≠ p)
    (hq : q ∈ fs) : q ∈ unlink fs p := by
  simp [unlink, hq, hne]

/-- Claim C1: for every successful /merge request with noStream set, the
downloaded video, the downloaded audio and the merged output are all absent
from the scratch directory at the moment the 200 JSON acknowledgment is
sent. -/
theorem merge_noStream_cleanup (videoUrl audioUrl dropboxPath : Option String)
    (vPath aPath mPath : String) (mergedSize : Nat)
    (upProvider : Except String Unit) (now : Int) (fs0 : List String)
    (sp : Option String)
    (hv : optTruthy videoUrl = true) (ha : optTruthy audioUrl = true)
    (hok : (mergeHandler videoUrl audioUrl dropboxPath true (.ok vPath)
        (.ok aPath) (.ok mPath) mergedSize upProvider now fs0).response =
      .okJson sp) :
    vPath ∉ (mergeHandler videoUrl audioUrl dropboxPath true (.ok vPath)
        (.ok aPath) (.ok mPath) mergedSize upProvider now fs0).fs ∧
    aPath ∉ (mergeHandler videoUrl audioUrl dropboxPath true (.ok vPath)
        (.ok aPath) (.ok mPath) mergedSize upProvider now fs0).fs ∧
    mPath ∉ (mergeHandler videoUrl audioUrl dropboxPath true (.ok vPath)
        (.ok aPath) (.ok mPath) mergedSize upProvider now fs0).fs := by
  unfold mergeHandler at hok ⊢
  simp [hv, ha] at hok ⊢
  split at hok <;> [skip; simp_all [unlink]]
  split at hok <;> simp_all [unlink]

/-- Witness for C1: a concrete successful noStream request with an upload
leaves none of the three temp files behind when the ack is sent. -/
theorem merge_noStream_cleanup_witness :
    "/tmp/v" ∉ (mergeHandler (some "https://v.example/v.mp4")
        (some "https://a.example/a.mp3") (some "/dest") true (.ok "/tmp/v")
        (.ok "/tmp/a") (.ok "/tmp/m") 7 (.ok ()) 99 ["/tmp/other"]).fs ∧
    "/tmp/a" ∉ (mergeHandler (some "https://v.example/v.mp4")
        (some "https://a.example/a.mp3") (some "/dest") true (.ok "/tmp/v")
        (.ok "/tmp/a") (.ok "/tmp/m") 7 (.ok ()) 99 ["/tmp/other"]).fs ∧
    "/tmp/m" ∉ (mergeHandler (some "https://v.example/v.mp4")
        (some "https://a.example/a.mp3") (some "/dest") true (.ok "/tmp/v")
        (.ok "/tmp/a") (.ok "/tmp/m") 7 (.ok ()) 99 ["/tmp/other"]).fs :=
  merge_noStream_cleanup (some "https://v.example/v.mp4")
    (some "https://a.example/a.mp3") (some "/dest") "/tmp/v" "/tmp/a" "/tmp/m"
    7 (.ok ()) 99 ["/tmp/other"] (some "/dest/merged-99.mp4") (by decide)
    (by decide) (by decide)

/-- Counterexample to claim C2 as stated: an audio download whose 200
response body stream drops mid-transfer throws only after
fs.createWriteStream opened the temp file, so a temp file created before
the failure exists on disk; aPath was never assigned, the catch block
unlinks only assigned variables, and while the response is already the 500,
the partial audio file is still in the scratch directory — a leaked file
remains. -/
theorem merge_partial_leak_counterexample :
    (mergeHandler (some "https://v.example/v.mp4")
        (some "https://a.example/a.mp3") none false (.ok "/tmp/v")
        (.failPartial "/tmp/a" "aborted") (.ok "/tmp/m") 7 (.ok ()) 99
        []).response = .serverError "Merge failed" "aborted" ∧
    "/tmp/a" ∈ (mergeHandler (some "https://v.example/v.mp4")
        (some "https://a.example/a.mp3") none false (.ok "/tmp/v")
        (.failPartial "/tmp/a" "aborted") (.ok "/tmp/m") 7 (.ok ()) 99
        []).fs ∧
    "/tmp/v" ∉ (mergeHandler (some "https://v.example/v.mp4")
        (some "https://a.example/a.mp3") none false (.ok "/tmp/v")
        (.failPartial "/tmp/a" "aborted") (.ok "/tmp/m") 7 (.ok ()) 99
        []).fs :=
  ⟨by decide, by decide, by decide⟩

/-- Claim C2 (amended): when any pipeline stage of /merge throws, the later
stages are never invoked, every temp file produced by a completed earlier
stage — one whose path was assigned to vPath, aPath or mPath — is removed
from the scratch directory, and the response is the 500 body with error
"Merge failed" and the thrown message as details; but a file partially
written by the failing stage itself was never assigned and the catch block
does not remove it, so it leaks.  The cleanup conclusions hold for every
initial scratch directory, in particular one from which the files have
already disappeared, so a failed deletion never changes the response. -/
theorem merge_failure_cleanup (videoUrl audioUrl dropboxPath : Option String)
    (noStream : Bool) (dlV dlA mrg : StageResult) (mergedSize : Nat)
    (upProvider : Except String Unit) (now : Int) (fs0 : List String)
    (hv : optTruthy videoUrl = true) (ha : optTruthy audioUrl = true) :
    (∀ e, dlV = .failEarly e →
      (mergeHandler videoUrl audioUrl dropboxPath noStream dlV dlA mrg
          mergedSize upProvider now fs0).response = .serverError "Merge failed" e ∧
      (mergeHandler videoUrl audioUrl dropboxPath noStream dlV dlA mrg
          mergedSize upProvider now fs0).stages = ⟨true, false, false, false⟩ ∧
      (mergeHandler videoUrl audioUrl dropboxPath noStream dlV dlA mrg
          mergedSize upProvider now fs0).fs = fs0) ∧
    (∀ p e, dlV = .failPartial p e →
      (mergeHandler videoUrl audioUrl dropboxPath noStream dlV dlA mrg
          mergedSize upProvider now fs0).response = .serverError "Merge failed" e ∧
      (mergeHandler videoUrl audioUrl dropboxPath noStream dlV dlA mrg
          mergedSize upProvider now fs0).stages = ⟨true, false, false, false⟩ ∧
      p ∈ (mergeHandler videoUrl audioUrl dropboxPath noStream dlV dlA mrg
          mergedSize upProvider now fs0).fs) ∧
    (∀ vPath e, dlV = .ok vPath → dlA = .failEarly e →
      (mergeHandler videoUrl audioUrl dropboxPath noStream dlV dlA mrg
          mergedSize upProvider now fs0).response = .serverError "Merge failed" e ∧
      (mergeHandler videoUrl audioUrl dropboxPath noStream dlV dlA mrg
          mergedSize upProvider now fs0).stages = ⟨true, true, false, false⟩ ∧
      vPath ∉ (mergeHandler videoUrl audioUrl dropboxPath noStream dlV dlA mrg
          mergedSize upProvider now fs0).fs) ∧
    (∀ vPath p e, dlV = .ok vPath → dlA = .failPartial p e →
      (mergeHandler videoUrl audioUrl dropboxPath noStream dlV dlA mrg
          mergedSize upProvider now fs0).response = .serverError "Merge failed" e ∧
      (mergeHandler videoUrl audioUrl dropboxPath noStream dlV dlA mrg
          mergedSize upProvider now fs0).stages = ⟨true, true, false, false⟩ ∧
      vPath ∉ (mergeHandler videoUrl audioUrl dropboxPath noStream dlV dlA mrg
          mergedSize upProvider now fs0).fs ∧
      (p ≠ vPath → p ∈ (mergeHandler videoUrl audioUrl dropboxPath noStream dlV dlA mrg
          mergedSize upProvider now fs0).fs)) ∧
    (∀ vPath aPath e, dlV = .ok vPath → dlA = .ok aPath →
      mrg = .failEarly e →
      (mergeHandler videoUrl audioUrl dropboxPath noStream dlV dlA mrg
          mergedSize upProvider now fs0).response = .serverError "Merge failed" e ∧
      (mergeHandler videoUrl audioUrl dropboxPath noStream dlV dlA mrg
          mergedSize upProvider now fs0).stages = ⟨true, true, true, false⟩ ∧
      vPath ∉ (mergeHandler videoUrl audioUrl dropboxPath noStream dlV dlA mrg
          mergedSize upProvider now fs0).fs ∧
      aPath ∉ (mergeHandler videoUrl audioUrl dropboxPath noStream dlV dlA mrg
          mergedSize upProvider now fs0).fs) ∧
    (∀ vPath aPath p e, dlV = .ok vPath → dlA = .ok aPath →
      mrg = .failPartial p e →
      (mergeHandler videoUrl audioUrl dropboxPath noStream dlV dlA mrg
          mergedSize upProvider now fs0).response = .serverError "Merge failed" e ∧
      (mergeHandler videoUrl audioUrl dropboxPath noStream dlV dlA mrg
          mergedSize upProvider now fs0).stages = ⟨true, true, true, false⟩ ∧
      vPath ∉ (mergeHandler videoUrl audioUrl dropboxPath noStream dlV dlA mrg
          mergedSize upProvider now fs0).fs ∧
      aPath ∉ (mergeHandler videoUrl audioUrl dropboxPath noStream dlV dlA mrg
          mergedSize upProvider now fs0).fs ∧
      (p ≠ vPath → p ≠ aPath → p ∈ (mergeHandler videoUrl audioUrl dropboxPath noStream dlV dlA mrg
          mergedSize upProvider now fs0).fs)) ∧
    (∀ vPath aPath mPath e, dlV = .ok vPath → dlA = .ok aPath →
      mrg = .ok mPath → optTruthy dropboxPath = true →
      (uploadToDropbox mergedSize upProvider).1 = .error e →
      (mergeHandler videoUrl audioUrl dropboxPath noStream dlV dlA mrg
          mergedSize upProvider now fs0).response = .serverError "Merge failed" e ∧
      (mergeHandler videoUrl audioUrl dropboxPath noStream dlV dlA mrg
          mergedSize upProvider now fs0).stages = ⟨true, true, true, true⟩ ∧
      vPath ∉ (mergeHandler videoUrl audioUrl dropboxPath noStream dlV dlA mrg
          mergedSize upProvider now fs0).fs ∧
      aPath ∉ (mergeHandler videoUrl audioUrl dropboxPath noStream dlV dlA mrg
          mergedSize upProvider now fs0).fs ∧
      mPath ∉ (mergeHandler videoUrl audioUrl dropboxPath noStream dlV dlA mrg
          mergedSize upProvider now fs0).fs) := by
  refine ⟨fun e h1 => ?_, fun p e h1 => ?_, fun vPath e h1 h2 => ?_,
    fun vPath p e h1 h2 => ?_, fun vPath aPath e h1 h2 h3 => ?_,
    fun vPath aPath p e h1 h2 h3 => ?_,
    fun vPath aPath mPath e h1 h2 h3 h4 h5 => ?_⟩
  · subst h1
    unfold mergeHandler
    simp [hv, ha]
  · subst h1
    unfold mergeHandler
    simp [hv, ha]
  · subst h1; subst h2
    unfold mergeHandler
    simp [hv, ha, unlink]
  · subst h1; subst h2
    unfold mergeHandler
    refine ⟨by simp [hv, ha], by simp [hv, ha], by simp [hv, ha, unlink],
      fun hpv => ?_⟩
    simp [hv, ha, unlink, hpv]
  · subst h1; subst h2; subst h3
    unfold mergeHandler
    simp [hv, ha, unlink]
  · subst h1; subst h2; subst h3
    unfold mergeHandler
    refine ⟨by simp [hv, ha], by simp [hv, ha], by simp [hv, ha, unlink],
      by simp [hv, ha, unlink], fun hpv hpa => ?_⟩
    simp [hv, ha, unlink, hpv, hpa]
  · subst h1; subst h2; subst h3
    unfold mergeHandler
    simp [hv, ha, h4, h5, unlink]

/-- Witness for the amended C2 theorem: a mid-stream audio failure yields
the 500, the merge and upload stages never run, the assigned video temp
file is removed, and the partial audio file is left behind. -/
theorem merge_failure_cleanup_witness :
    (mergeHandler (some "https://v.example/v.mp4")
        (some "https://a.example/a.mp3") none false (.ok "/tmp/v")
        (.failPartial "/tmp/a" "socket hang up") (.ok "/tmp/m") 7 (.ok ())
        99 []).response = .serverError "Merge failed" "socket hang up" ∧
    (mergeHandler (some "https://v.example/v.mp4")
        (some "https://a.example/a.mp3") none false (.ok "/tmp/v")
        (.failPartial "/tmp/a" "socket hang up") (.ok "/tmp/m") 7 (.ok ())
        99 []).stages = ⟨true, true, false, false⟩ ∧
    "/tmp/v" ∉ (mergeHandler (some "https://v.example/v.mp4")
        (some "https://a.example/a.mp3") none false (.ok "/tmp/v")
        (.failPartial "/tmp/a" "socket hang up") (.ok "/tmp/m") 7 (.ok ())
        99 []).fs ∧
    "/tmp/a" ∈ (mergeHandler (some "https://v.example/v.mp4")
        (some "https://a.example/a.mp3") none false (.ok "/tmp/v")
        (.failPartial "/tmp/a" "socket hang up") (.ok "/tmp/m") 7 (.ok ())
        99 []).fs :=
  have h := (merge_failure_cleanup (some "https://v.example/v.mp4")
    (some "https://a.example/a.mp3") none false (.ok "/tmp/v")
    (.failPartial "/tmp/a" "socket hang up") (.ok "/tmp/m") 7 (.ok ()) 99 []
    (by decide) (by decide)).2.2.2.1 "/tmp/v" "/tmp/a" "socket hang up" rfl rfl
  ⟨h.1, h.2.1, h.2.2.1, h.2.2.2 (by decide)⟩

/-- Claim C9: when a /merge request supplies a dropboxPath, the destination
actually used for the upload and echoed in the X-Dropbox-Path header is the
supplied value when it ends in ".mp4", and otherwise the derived value
dropboxPath ++ "/merged-" ++ epoch-millis ++ ".mp4". -/
theorem merge_dropboxPath_derivation (videoUrl audioUrl : Option String)
    (d : String) (noStream : Bool) (vPath aPath mPath : String)
    (mergedSize : Nat) (upProvider : Except String Unit) (now : Int)
    (fs0 : List String)
    (hv : optTruthy videoUrl = true) (ha : optTruthy audioUrl = true)
    (hd : d ≠ "")
    (hup : (uploadToDropbox mergedSize upProvider).1 = .ok ()) :
    (mergeHandler videoUrl audioUrl (some d) noStream (.ok vPath) (.ok aPath)
        (.ok mPath) mergedSize upProvider now fs0).uploadDest =
      some (finalDropboxPath d now) ∧
    (mergeHandler videoUrl audioUrl (some d) noStream (.ok vPath) (.ok aPath)
        (.ok mPath) mergedSize upProvider now fs0).xDropboxPath =
      some (finalDropboxPath d now) ∧
    (jsEndsWith d ".mp4" = true → finalDropboxPath d now = d) ∧
    (jsEndsWith d ".mp4" = false →
      finalDropboxPath d now = d ++ "/merged-" ++ toString now ++ ".mp4") := by
  have hdt : optTruthy (some d) = true := by simp [optTruthy, hd]
  refine ⟨?_, ?_, fun h => by simp [finalDropboxPath, h],
      fun h => by simp [finalDropboxPath, h]⟩ <;>
    unfold mergeHandler <;>
    simp [hv, ha, hdt, hup] <;>
    cases noStream <;> simp

/-- Witness for C9: a folder destination gets the derived timestamped name,
an explicit .mp4 destination is used unchanged. -/
theorem merge_dropboxPath_derivation_witness :
    (mergeHandler (some "https://v.example/v.mp4")
        (some "https://a.example/a.mp3") (some "/My Folder") true (.ok "/tmp/v")
        (.ok "/tmp/a") (.ok "/tmp/m") 7 (.ok ()) 1712000000000 []).uploadDest =
      some (finalDropboxPath "/My Folder" 1712000000000) ∧
    finalDropboxPath "/My Folder" 1712000000000 =
      "/My Folder/merged-1712000000000.mp4" ∧
    finalDropboxPath "/My Folder/out.mp4" 1712000000000 = "/My Folder/out.mp4" :=
  ⟨(merge_dropboxPath_derivation (some "https://v.example/v.mp4")
      (some "https://a.example/a.mp3") "/My Folder" true "/tmp/v" "/tmp/a"
      "/tmp/m" 7 (.ok ()) 1712000000000 [] (by decide) (by decide) (by decide)
      rfl).1,
   (merge_dropboxPath_derivation (some "https://v.example/v.mp4")
      (some "https://a.example/a.mp3") "/My Folder" true "/tmp/v" "/tmp/a"
      "/tmp/m" 7 (.ok ()) 1712000000000 [] (by decide) (by decide) (by decide)
      rfl).2.2.2 (by decide),
   (merge_dropboxPath_derivation (some "https://v.example/v.mp4")
      (some "https://a.example/a.mp3") "/My Folder/out.mp4" true "/tmp/v"
      "/tmp/a" "/tmp/m" 7 (.ok ()) 1712000000000 [] (by decide) (by decide)
      (by decide) rfl).2.2.1 (by decide)⟩

/-- Claim C8: an upload of a local file larger than 150MB fails with the
too-large error before any byte reaches the provider, and inside /merge it
surfaces as the 500 response; a file of exactly 150MB or less passes the
check and the provider call proceeds. -/
theorem upload_size_ceiling (size : Nat) (provider : Except String Unit) :
    (size > 150 * 1024 * 1024 →
      uploadToDropbox size provider =
        (.error "File too large for simple upload (>150MB).", false)) ∧
    (size ≤ 150 * 1024 * 1024 → uploadToDropbox size provider = (provider, true)) ∧
    (∀ (videoUrl audioUrl dropboxPath : Option String) (noStream : Bool)
        (vPath aPath mPath : String) (now : Int) (fs0 : List String),
      optTruthy videoUrl = true → optTruthy audioUrl = true →
      optTruthy dropboxPath = true → size > 150 * 1024 * 1024 →
      (mergeHandler videoUrl audioUrl dropboxPath noStream (.ok vPath)
          (.ok aPath) (.ok mPath) size provider now fs0).response =
        .serverError "Merge failed" "File too large for simple upload (>150MB)." ∧
      (mergeHandler videoUrl audioUrl dropboxPath noStream (.ok vPath)
          (.ok aPath) (.ok mPath) size provider now fs0).uploadTransferred =
        false) := by
  refine ⟨fun h => ?_, fun h => ?_, ?_⟩
  · simp [uploadToDropbox, h]
  · simp [uploadToDropbox, Nat.not_lt.mpr h]
  · intro videoUrl audioUrl dropboxPath noStream vPath aPath mPath now fs0
      hv ha hd h
    unfold mergeHandler
    simp [hv, ha, hd, uploadToDropbox, h]

/-- Witness for C8: a 200MB file is rejected with no transfer and surfaces
as the 500 response; a file of exactly 150MB passes the check. -/
theorem upload_size_ceiling_witness :
    uploadToDropbox (200 * 1024 * 1024) (.ok ()) =
      (.error "File too large for simple upload (>150MB).", false) ∧
    uploadToDropbox (150 * 1024 * 1024) (.ok ()) = (.ok (), true) ∧
    (mergeHandler (some "https://v.example/v.mp4")
        (some "https://a.example/a.mp3") (some "/dest") false (.ok "/tmp/v")
        (.ok "/tmp/a") (.ok "/tmp/m") (200 * 1024 * 1024) (.ok ()) 99
        []).response =
      .serverError "Merge failed" "File too large for simple upload (>150MB)." :=
  ⟨(upload_size_ceiling (200 * 1024 * 1024) (.ok ())).1 (by norm_num),
   (upload_size_ceiling (150 * 1024 * 1024) (.ok ())).2.1 (by norm_num),
   ((upload_size_ceiling (200 * 1024 * 1024) (.ok ())).2.2
      (some "https://v.example/v.mp4") (some "https://a.example/a.mp3")
      (some "/dest") false "/tmp/v" "/tmp/a" "/tmp/m" 99 [] (by decide)
      (by decide) (by decide) (by norm_num)).1⟩

/-- Claim C3: two /tiktok/post calls with the same truthy Idempotency-Key,
the first of which ran the publish pipeline successfully and obtained a
publish identifier, have the second call answer with that same identifier
from the idempotency map, leaving the map unchanged and performing none of
the download, publish-init or upload work. -/
theorem tiktok_idempotent_replay
    (dropboxPath caption dropboxPath2 caption2 : Option String) (k : String)
    (m : List (String × IdemRecord)) (now now2 : Int) (pid : String)
    (pipeline2 : Except String String)
    (hb1 : optTruthy dropboxPath = true) (hc1 : optTruthy caption = true)
    (hb2 : optTruthy dropboxPath2 = true) (hc2 : optTruthy caption2 = true)
    (hk : k ≠ "") (hfresh : idemLookup k m = none) :
    (tiktokPost true dropboxPath caption (some k) m now (.ok pid)).1 =
      .okNew pid ∧
    tiktokPost true dropboxPath2 caption2 (some k)
        (tiktokPost true dropboxPath caption (some k) m now (.ok pid)).2.1
        now2 pipeline2 =
      (.okCached pid,
       (tiktokPost true dropboxPath caption (some k) m now (.ok pid)).2.1,
       false) := by
  have hkt : optTruthy (some k) = true := by simp [optTruthy, hk]
  have hm1 : (tiktokPost true dropboxPath caption (some k) m now (.ok pid)).2.1
      = idemSet k ⟨pid, now⟩ m := by
    simp [tiktokPost, hb1, hc1, hkt, hfresh]
  have hlook : idemLookup k (idemSet k (⟨pid, now⟩ : IdemRecord) m) =
      some ⟨pid, now⟩ := by
    simp [idemSet, idemLookup]
  refine ⟨by simp [tiktokPost, hb1, hc1, hkt, hfresh], ?_⟩
  rw [hm1]
  simp [tiktokPost, hb2, hc2, hkt, hlook]

/-- Witness for C3: a concrete replay returns the identifier of the first call
with no pipeline work. -/
theorem tiktok_idempotent_replay_witness :
    (tiktokPost true (some "/f.mp4") (some "cap") (some "key-1") [] 7
        (.ok "pub-42")).1 = .okNew "pub-42" ∧
    tiktokPost true (some "/f.mp4") (some "cap") (some "key-1")
        (tiktokPost true (some "/f.mp4") (some "cap") (some "key-1") [] 7
          (.ok "pub-42")).2.1 8 (.error "down") =
      (.okCached "pub-42",
       (tiktokPost true (some "/f.mp4") (some "cap") (some "key-1") [] 7
         (.ok "pub-42")).2.1, false) :=
  tiktok_idempotent_replay (some "/f.mp4") (some "cap") (some "/f.mp4")
    (some "cap") "key-1" [] 7 8 "pub-42" (.error "down") (by decide)
    (by decide) (by decide) (by decide) (by decide) rfl

/-- Counterexample to claim C5 as stated: the record stored at epoch 0 is
older than 6 hours at epoch 21600001, the latest sweep (firing at epoch
21600000) did not purge it because its age was then not strictly greater
than 6 hours, and the duplicate-key lookup at 21600001 still returns the
cached publish identifier. -/
theorem idem_purge_counterexample :
    ((21600001 : Int) - 0 > 6 * 60 * 60 * 1000) ∧
    sweep [("k", ⟨"pid", 0⟩)] 21600000 = [("k", ⟨"pid", 0⟩)] ∧
    tiktokPost true (some "/f.mp4") (some "c") (some "k")
        [("k", ⟨"pid", 0⟩)] 21600001 (.error "net") =
      (.okCached "pid", [("k", ⟨"pid", 0⟩)], false) :=
  ⟨by norm_num, by decide, by decide⟩

/-- After a sweep at time t, a key all of whose records are strictly older
than six hours no longer resolves in the idempotency map. -/
theorem sweep_lookup_none (t : Int) (k : String) :
    ∀ m : List (String × IdemRecord),
    (∀ r : IdemRecord, (k, r) ∈ m → t - r.recordedAt > 6 * 60 * 60 * 1000) →
    idemLookup k (sweep m t) = none := by
  intro m
  induction m with
  | nil => intro _; rfl
  | cons kv rest ih =>
    intro hold
    obtain ⟨k1, r1⟩ := kv
    have hrest : ∀ r : IdemRecord, (k, r) ∈ rest →
        t - r.recordedAt > 6 * 60 * 60 * 1000 :=
      fun r hr => hold r (List.mem_cons_of_mem _ hr)
    by_cases hp : t - r1.recordedAt > 6 * 60 * 60 * 1000
    · rw [sweep, if_pos hp]
      exact ih hrest
    · have hk : k ≠ k1 := fun h =>
        hp (hold r1 (h ▸ List.mem_cons_self _ _))
      rw [sweep, if_neg hp, idemLookup, if_neg hk]
      exact ih hrest

/-- Claim C5 (amended): the periodic sweep purges every idempotency record
strictly older than 6 hours, so once a sweep has run after the record
expires, a /tiktok/post with that key misses the cache and runs the full
pipeline again.  Between sweeps a record older than 6 hours can still
satisfy the lookup, as the counterexample shows. -/
theorem idem_sweep_behavior (m : List (String × IdemRecord)) (tSweep tReq : Int)
    (k : String) (dropboxPath caption : Option String) (pid : String)
    (hold : ∀ r : IdemRecord, (k, r) ∈ m →
      tSweep - r.recordedAt > 6 * 60 * 60 * 1000)
    (hb : optTruthy dropboxPath = true) (hc : optTruthy caption = true)
    (hk : k ≠ "") :
    idemLookup k (sweep m tSweep) = none ∧
    (tiktokPost true dropboxPath caption (some k) (sweep m tSweep) tReq
        (.ok pid)).1 = .okNew pid ∧
    (tiktokPost true dropboxPath caption (some k) (sweep m tSweep) tReq
        (.ok pid)).2.2 = true := by
  have hnone := sweep_lookup_none tSweep k m hold
  have hkt : optTruthy (some k) = true := by simp [optTruthy, hk]
  exact ⟨hnone, by simp [tiktokPost, hb, hc, hkt, hnone],
    by simp [tiktokPost, hb, hc, hkt, hnone]⟩

/-- Witness for the amended C5 theorem: after the sweep at epoch 21600001 the
six-hour-old record is gone and a retry with the same key reruns the
pipeline. -/
theorem idem_sweep_behavior_witness :
    idemLookup "k" (sweep [("k", ⟨"pid", 0⟩)] 21600001) = none ∧
    (tiktokPost true (some "/f.mp4") (some "c") (some "k")
        (sweep [("k", ⟨"pid", 0⟩)] 21600001) 21600002 (.ok "pid2")).1 =
      .okNew "pid2" ∧
    (tiktokPost true (some "/f.mp4") (some "c") (some "k")
        (sweep [("k", ⟨"pid", 0⟩)] 21600001) 21600002 (.ok "pid2")).2.2 =
      true :=
  idem_sweep_behavior [("k", ⟨"pid", 0⟩)] 21600001 21600002 "k"
    (some "/f.mp4") (some "c") "pid2"
    (by intro r hr; simp at hr; rw [hr]; norm_num) (by decide) (by decide)
    (by decide)

end Merger
